import Mathlib

/-!
Shallow embedding of `src/pykrige/sk.py` (class `SimpleKriging`) over exact
rational arithmetic.

Conventions of the embedding:

* numpy 1-D arrays are `List ℚ`; 2-D arrays are `List (List ℚ)` in row-major
  order; boolean arrays are `List Bool` / `List (List Bool)`.
* floating-point arithmetic is modelled by exact rational arithmetic.
* external library functions (`scipy.linalg.inv`, `scipy.linalg.solve`,
  `scipy.spatial.cKDTree.query`, `scipy.spatial.distance.cdist`) are modelled
  by executable rational counterparts implementing their documented contracts
  (`linv`, `linsolve`, `knnQuery`, `qdist`); euclidean square roots are exact
  on the perfect-square inputs used in this development (`qsqrt`).
* functions of this repository that are not under `src/` (`core.py`,
  `variogram_models.py`) are modelled from the spec where they matter; see the
  doc comments on `adjustId` and `initModelParams`.
* Python exceptions are modelled by `Except KrigeError`; each `raise`
  statement of `sk.py` maps to one `KrigeError` constructor.
-/

namespace PyKrige

/-- A variogram model function: `(parameters, distance) -> semivariance`,
applied elementwise by numpy when given an array of distances. -/
abbrev VarioFn := List ℚ → ℚ → ℚ

/-- The external `core.adjust_for_anisotropy` signature:
`(x, y, xcenter, ycenter, scaling, angle) -> (x_adjusted, y_adjusted)`. -/
abbrev AdjustFn := List ℚ → List ℚ → ℚ → ℚ → ℚ → ℚ → List ℚ × List ℚ

/-- Errors raised by `sk.py`; one constructor per `raise` site. -/
inductive KrigeError where
  /-- `execute` line 544: "for simple kriging variogram must have well behaved
  correlation" (linear / power model rejected). -/
  | modelInapplicable
  /-- `execute` line 547: bad `style` argument. -/
  | badStyle
  /-- `execute` line 559: missing mask for style `masked` (python `IOError`). -/
  | maskMissing
  /-- `execute` line 564: "Mask dimensions do not match specified grid
  dimensions." -/
  | maskDim
  /-- `execute` line 573: mismatched point-mode array lengths. -/
  | pointsDim
  /-- `__init__` line 216 / `update_variogram_model` line 286: unknown
  variogram model. -/
  | unknownKind
  /-- `__init__` line 219 / `update_variogram_model` line 289: custom model
  without a callable function. -/
  | customNoFn
  /-- numpy `amax` / `amin` on a zero-size array (constructor centers). -/
  | emptyReduce
  /-- `execute` line 614: unsupported backend for a moving window. -/
  | badBackendMW
  /-- `execute` line 624: unsupported backend. -/
  | badBackend
  /-- `scipy.linalg.solve`: incompatible matrix and vector dimensions. -/
  | dimMismatch
  /-- `scipy.linalg.inv` / `scipy.linalg.solve`: singular matrix. -/
  | singular
  deriving DecidableEq, Repr

instance {ε α : Type _} [DecidableEq ε] [DecidableEq α] : DecidableEq (Except ε α) :=
  fun x y =>
    match x, y with
    | .error a, .error b =>
        if h : a = b then isTrue (congrArg Except.error h)
        else isFalse (fun hc => h (Except.error.inj hc))
    | .ok a, .ok b =>
        if h : a = b then isTrue (congrArg Except.ok h)
        else isFalse (fun hc => h (Except.ok.inj hc))
    | .error _, .ok _ => isFalse (fun hc => Except.noConfusion hc)
    | .ok _, .error _ => isFalse (fun hc => Except.noConfusion hc)

/-- Square root on ℚ through integer square roots of numerator and
denominator.  It is exact on rationals whose numerator and denominator are
perfect squares — every input it receives in this development — and in
particular `qsqrt 0 = 0`, which is the only fact the general theorems use.
This models the euclidean norm of `scipy.spatial.distance.cdist`. -/
def qsqrt (q : ℚ) : ℚ := (Nat.sqrt q.num.toNat : ℚ) / (Nat.sqrt q.den : ℚ)

/-- Squared euclidean distance between two planar points. -/
def dist2 (p q : ℚ × ℚ) : ℚ := (p.1 - q.1) ^ 2 + (p.2 - q.2) ^ 2

/-- Euclidean distance (`cdist(·, ·, 'euclidean')` entrywise). -/
def qdist (p q : ℚ × ℚ) : ℚ := qsqrt (dist2 p q)

/-- Dot product of two rational vectors (`np.sum(u * v)`); numpy broadcasting
is not needed here because all uses pair equal-length vectors. -/
def dotQ (u v : List ℚ) : ℚ := ((u.zip v).map (fun p => p.1 * p.2)).sum

/-- Matrix–vector product (`np.dot`). -/
def matVec (m : List (List ℚ)) (v : List ℚ) : List ℚ := m.map (fun r => dotQ r v)

/-- Column `j` of a matrix. -/
def colQ (j : ℕ) (m : List (List ℚ)) : List ℚ := m.map (fun r => r.getD j 0)

/-- Standard basis vector of length `n` with the `1` in position `i`. -/
def unitVecQ : ℕ → ℕ → List ℚ
  | 0, _ => []
  | n + 1, 0 => 1 :: List.replicate n 0
  | n + 1, j + 1 => 0 :: unitVecQ n j

/-- Laplace expansion along the first row, with explicit fuel so that the
definition is structurally recursive (the fuel always equals the number of
rows at the call sites). -/
def detAux : ℕ → List (List ℚ) → ℚ
  | 0, _ => 1
  | _ + 1, [] => 1
  | fuel + 1, r :: rs =>
      (r.enum.map (fun p =>
        (-1 : ℚ) ^ p.1 * p.2 * detAux fuel (rs.map (fun row => row.eraseIdx p.1)))).sum

/-- Determinant of a square rational matrix. -/
def detL (m : List (List ℚ)) : ℚ := detAux m.length m

/-- Whether every row has the same length as the number of rows. -/
def isSquare (m : List (List ℚ)) : Bool := m.all (fun r => r.length == m.length)

/-- Replace column `j` of `a` by the vector `b` (used by Cramer's rule). -/
def replaceCol (j : ℕ) (b : List ℚ) (a : List (List ℚ)) : List (List ℚ) :=
  (a.zip b).map (fun p => p.1.set j p.2)

/-- Model of the external `scipy.linalg.solve`: raises when the matrix is not
square or the right-hand side has a different number of rows, raises on a
singular matrix and otherwise returns the unique solution of `a · x = b`
(computed by Cramer's rule, which agrees with any direct solve over ℚ). -/
def linsolve (a : List (List ℚ)) (b : List ℚ) : Except KrigeError (List ℚ) :=
  if a.length ≠ b.length ∨ ¬ isSquare a then .error .dimMismatch
  else if detL a = 0 then .error .singular
  else .ok ((List.range a.length).map (fun j => detL (replaceCol j b a) / detL a))

/-- Model of the external `scipy.linalg.inv`: raises on a non-square or
singular matrix, and otherwise returns the inverse (entry `(i, j)` is the
`i`-th coordinate of the solution of `a · x = e_j`, by Cramer's rule). -/
def linv (a : List (List ℚ)) : Except KrigeError (List (List ℚ)) :=
  if ¬ isSquare a ∨ detL a = 0 then .error .singular
  else .ok ((List.range a.length).map (fun i =>
      (List.range a.length).map (fun j =>
        detL (replaceCol i (unitVecQ a.length j) a) / detL a)))

/-- Insertion into a list sorted by key (ties broken by index, matching a
deterministic nearest-neighbour ordering). -/
def insertByKey (x : ℚ × ℕ) : List (ℚ × ℕ) → List (ℚ × ℕ)
  | [] => [x]
  | y :: ys =>
      if x.1 < y.1 ∨ (x.1 = y.1 ∧ x.2 ≤ y.2) then x :: y :: ys
      else y :: insertByKey x ys

/-- Insertion sort by key. -/
def sortByKey (l : List (ℚ × ℕ)) : List (ℚ × ℕ) := l.foldr insertByKey []

/-- Model of the external `scipy.spatial.cKDTree.query`: the `k` data points
nearest to `q` by euclidean distance.  Ordering is computed on squared
distances (the ordering is the same as for euclidean distances); the returned
distances go through `qsqrt`.  Returns `(distances, indices)`. -/
def knnQuery (xyData : List (ℚ × ℚ)) (q : ℚ × ℚ) (k : ℕ) : List ℚ × List ℕ :=
  let sorted := sortByKey (xyData.enum.map (fun p => (dist2 q p.2, p.1)))
  let top := sorted.take k
  (top.map (fun p => qsqrt p.1), top.map (fun p => p.2))

/-- numpy `amax` on a nonempty 1-D array. -/
def amax (l : List ℚ) : ℚ := l.foldl max (l.headD 0)

/-- numpy `amin` on a nonempty 1-D array. -/
def amin (l : List ℚ) : ℚ := l.foldl min (l.headD 0)

/-- The state stored on a `SimpleKriging` instance by `__init__` that the
solve path reads (verbosity, plotting and fit-statistics fields are omitted:
no claim mentions them and they do not feed the solver). -/
structure Session where
  X_ORIG : List ℚ
  Y_ORIG : List ℚ
  Z : List ℚ
  variogram_model : String
  variogram_function : VarioFn
  variogram_model_parameters : List ℚ
  anisotropy_scaling : ℚ
  anisotropy_angle : ℚ
  XCENTER : ℚ
  YCENTER : ℚ
  X_ADJUSTED : List ℚ
  Y_ADJUSTED : List ℚ

/-- The keys of `SimpleKriging.variogram_dict`. -/
def builtinKinds : List String :=
  ["linear", "power", "gaussian", "spherical", "exponential"]

/-- Modelled from the spec: `core.adjust_for_anisotropy` lives in `core.py`,
which is not under `src/`.  Spec §4.1 and §8 fix its value at
`scaling = 1, angle = 0`: the identity transform.  Every concrete instance in
this file uses exactly those parameter values, so the identity model is exact
there; the general theorems instead quantify over an arbitrary `AdjustFn`. -/
def adjustId : AdjustFn := fun x y _ _ _ _ => (x, y)

/-- Modelled from the spec: `core.initialize_variogram_model` lives in
`core.py`, which is not under `src/`.  Per spec §6 it fails only on
configuration errors (unknown kind, custom without function), both of which
`sk.py` has already checked before the call; per the `__init__` docstring it
returns the explicitly provided parameter list when one is given and an
automatically fitted one otherwise.  The fitting algorithm itself is out of
scope (spec §1), so the fitted fallback is an explicit argument `autofit`. -/
def initModelParams (explicit : Option (List ℚ)) (autofit : List ℚ) : List ℚ :=
  explicit.getD autofit

/-- `params[0]`, interpreted as the sill by the solver (spec §3). -/
def sillOf (s : Session) : ℚ := s.variogram_model_parameters.headD 0

/-- The expression `self.variogram_model_parameters[0] -
self.variogram_function(self.variogram_model_parameters, d)` that `sk.py`
repeats at lines 400, 416, 443 and 468. -/
def covf (s : Session) (d : ℚ) : ℚ :=
  sillOf s - s.variogram_function s.variogram_model_parameters d

/-- Embedding of `SimpleKriging.__init__` (lines 186–229; verbosity, plotting
and the optional statistics block are omitted).  `vdict` stands for the
external `variogram_models` module backing `variogram_dict`, and `autofit`
for the parameters the external fit would produce when none are given. -/
def SimpleKriging.init (adjust : AdjustFn) (vdict : String → VarioFn)
    (autofit : List ℚ) (x y z : List ℚ) (variogram_model : String)
    (variogram_parameters : Option (List ℚ)) (variogram_function : Option VarioFn)
    (anisotropy_scaling anisotropy_angle : ℚ) : Except KrigeError Session :=
  -- np.atleast_1d(np.squeeze(...)) is the identity on the 1-D inputs modelled
  -- here; note that no length validation of x, y, z takes place.
  if x.isEmpty ∨ y.isEmpty then .error .emptyReduce
  else
    let XCENTER := (amax x + amin x) / 2
    let YCENTER := (amax y + amin y) / 2
    let adj := adjust x y XCENTER YCENTER anisotropy_scaling anisotropy_angle
    if variogram_model ∈ builtinKinds then
      .ok { X_ORIG := x, Y_ORIG := y, Z := z,
            variogram_model := variogram_model,
            variogram_function := vdict variogram_model,
            variogram_model_parameters := initModelParams variogram_parameters autofit,
            anisotropy_scaling := anisotropy_scaling,
            anisotropy_angle := anisotropy_angle,
            XCENTER := XCENTER, YCENTER := YCENTER,
            X_ADJUSTED := adj.1, Y_ADJUSTED := adj.2 }
    else if variogram_model = "custom" then
      match variogram_function with
      | none => .error .customNoFn
      | some f =>
          .ok { X_ORIG := x, Y_ORIG := y, Z := z,
                variogram_model := variogram_model,
                variogram_function := f,
                variogram_model_parameters := initModelParams variogram_parameters autofit,
                anisotropy_scaling := anisotropy_scaling,
                anisotropy_angle := anisotropy_angle,
                XCENTER := XCENTER, YCENTER := YCENTER,
                X_ADJUSTED := adj.1, Y_ADJUSTED := adj.2 }
    else .error .unknownKind

/-- Embedding of `SimpleKriging.update_variogram_model` (lines 266–331; the
verbose prints and the trailing statistics recomputation are omitted).  The
anisotropy block (lines 271–282) runs first, exactly as in the source; a
later validation failure is returned as an error of the whole call (the
python original would leave the partially mutated object behind, which no
claim depends on). -/
def Session.update_variogram_model (s : Session) (adjust : AdjustFn)
    (vdict : String → VarioFn) (autofit : List ℚ) (variogram_model : String)
    (variogram_parameters : Option (List ℚ)) (variogram_function : Option VarioFn)
    (anisotropy_scaling anisotropy_angle : ℚ) : Except KrigeError Session :=
  let s1 :=
    if anisotropy_scaling ≠ s.anisotropy_scaling ∨ anisotropy_angle ≠ s.anisotropy_angle then
      let adj := adjust s.X_ORIG s.Y_ORIG s.XCENTER s.YCENTER anisotropy_scaling anisotropy_angle
      { s with anisotropy_scaling := anisotropy_scaling,
               anisotropy_angle := anisotropy_angle,
               X_ADJUSTED := adj.1, Y_ADJUSTED := adj.2 }
    else s
  if variogram_model ∈ builtinKinds then
    .ok { s1 with variogram_model := variogram_model,
                  variogram_function := vdict variogram_model,
                  variogram_model_parameters := initModelParams variogram_parameters autofit }
  else if variogram_model = "custom" then
    match variogram_function with
    | none => .error .customNoFn
    | some f =>
        .ok { s1 with variogram_model := variogram_model,
                      variogram_function := f,
                      variogram_model_parameters := initModelParams variogram_parameters autofit }
  else .error .unknownKind

/-- Embedding of `SimpleKriging._get_kriging_matrix` (lines 394–402):
`a[i, j] = params[0] - variogram_function(params, d(i, j))` over the pairwise
euclidean distances of the adjusted coordinates.  Note that the source forces
nothing on the diagonal.  (The python `n` argument always equals the data
length and only sizes the preallocated array, so it is not a parameter
here.) -/
def Session.get_kriging_matrix (s : Session) : List (List ℚ) :=
  let xy := s.X_ADJUSTED.zip s.Y_ADJUSTED
  xy.map (fun p => xy.map (fun q => covf s (qdist p q)))

/-- Embedding of `SimpleKriging._exec_vector` (lines 404–426).  `a_inv` is
`scipy.linalg.inv(a)`; `b[k, i] = params[0] - variogram(params, bd[k, i])`;
`x_k = a_inv · b_k`; `zvalues[k] = Σ_i x_k[i]·Z[i]` and
`sigmasq[k] = params[0] - Σ_i x_k[i]·b_k[i]`.  The `mask` argument only wraps
`b` into a `numpy.ma` masked array (lines 418–420); `np.dot` consumes the
underlying data, so the computed values do not depend on it. -/
def Session.exec_vector (s : Session) (a : List (List ℚ)) (bd : List (List ℚ))
    (mask : List Bool) : Except KrigeError (List ℚ × List ℚ) :=
  match linv a with
  | .error e => .error e
  | .ok aInv =>
      let b := bd.map (fun row => row.map (fun dv => covf s dv))
      let xs := b.map (fun bk => matVec aInv bk)
      .ok (xs.map (fun xk => dotQ xk s.Z),
           (xs.zip b).map (fun p => sillOf s - dotQ p.1 p.2))

/-- Embedding of `SimpleKriging._exec_loop` (lines 428–448).  `zvalues` and
`sigmasq` are allocated as zeros of length `npt`; the loop runs over
`np.nonzero(~mask)[0]`, i.e. only the indices with mask `False` are ever
written — masked slots keep their initial zero. -/
def Session.exec_loop (s : Session) (a : List (List ℚ)) (bdAll : List (List ℚ))
    (mask : List Bool) : Except KrigeError (List ℚ × List ℚ) :=
  match linv a with
  | .error e => .error e
  | .ok aInv =>
      let res := (List.range bdAll.length).map (fun j =>
        if mask.getD j false then ((0 : ℚ), (0 : ℚ))
        else
          let b := (bdAll.getD j []).map (fun dv => covf s dv)
          let x := matVec aInv b
          (dotQ x s.Z, sillOf s - dotQ x b))
      .ok (res.map Prod.fst, res.map Prod.snd)

/-- Fancy indexing `v[sel]`. -/
def selIdxQ (v : List ℚ) (sel : List ℕ) : List ℚ := sel.map (fun t => v.getD t 0)

/-- The loop body of `_exec_loop_moving_window` (lines 460–473), recursing
over the unmasked indices and threading the `zvalues` / `sigmasq` arrays. An
exception from `scipy.linalg.solve` aborts the whole call. -/
def Session.exec_loop_moving_window_aux (s : Session) (aAll bdAll : List (List ℚ))
    (bdIdx : List (List ℕ)) : List ℕ → List ℚ → List ℚ →
    Except KrigeError (List ℚ × List ℚ)
  | [], zv, sg => .ok (zv, sg)
  | i :: rest, zv, sg =>
      let bsel := bdIdx.getD i []
      -- line 464: a_selector = np.concatenate((b_selector, [a_all.shape[0]-1]))
      let asel := bsel ++ [aAll.length - 1]
      let asub := asel.map (fun r => asel.map (fun c => (aAll.getD r []).getD c 0))
      let b := (bdAll.getD i []).map (fun dv => covf s dv)
      match linsolve asub b with
      | .error e => .error e
      | .ok x =>
          s.exec_loop_moving_window_aux aAll bdAll bdIdx rest
            (zv.set i (dotQ x (selIdxQ s.Z bsel)))
            (sg.set i (sillOf s - dotQ x b))

/-- Embedding of `SimpleKriging._exec_loop_moving_window` (lines 450–475):
for each unmasked query point the neighbour indices `bd_idx[i]` are extended
by the extra index `a_all.shape[0] - 1`, the corresponding rows and columns of
`a_all` are selected, the length-`k` covariance vector is formed, and
`scipy.linalg.solve` is called on the resulting system. -/
def Session.exec_loop_moving_window (s : Session) (aAll bdAll : List (List ℚ))
    (mask : List Bool) (bdIdx : List (List ℕ)) :
    Except KrigeError (List ℚ × List ℚ) :=
  s.exec_loop_moving_window_aux aAll bdAll bdIdx
    ((List.range bdAll.length).filter (fun i => !(mask.getD i false)))
    (List.replicate bdAll.length 0) (List.replicate bdAll.length 0)

/-- Transpose of a rectangular boolean matrix (`mask.T`). -/
def transposeB (m : List (List Bool)) : List (List Bool) :=
  (List.range ((m.headD []).length)).map (fun j => m.map (fun r => r.getD j false))

/-- Mask validation of `execute` lines 557–565ps: a missing mask raises, a
mask of the transposed shape is transposed, any other shape mismatch raises;
the accepted mask is flattened row-major. -/
def processMask (ny nx : ℕ) : Option (List (List Bool)) → Except KrigeError (List Bool)
  | none => .error .maskMissing
  | some m =>
      if m.length ≠ ny ∨ (m.headD []).length ≠ nx then
        if m.length = nx ∧ (m.headD []).length = ny then .ok (transposeB m).flatten
        else .error .maskDim
      else .ok m.flatten

/-- Row-major reshape of a flat rational array to `r` rows of `c` entries
(`v.reshape((r, c))`; all call sites have `v.length = r * c`). -/
def reshapeQ (r c : ℕ) (v : List ℚ) : List (List ℚ) :=
  (List.range r).map (fun i => (List.range c).map (fun j => v.getD (i * c + j) 0))

/-- Row-major reshape of a flat boolean array. -/
def reshapeB (r c : ℕ) (v : List Bool) : List (List Bool) :=
  (List.range r).map (fun i => (List.range c).map (fun j => v.getD (i * c + j) false))

/-- Result arrays of `execute`: a flat array for style `points`, a plain 2-D
grid for style `grid`, and a `numpy.ma` masked 2-D array (values plus
per-cell validity flags, `true` = masked/invalid) for style `masked`. -/
inductive OutArray where
  | flat (vals : List ℚ)
  | grid (vals : List (List ℚ))
  | maskedGrid (vals : List (List ℚ)) (flags : List (List Bool))
  deriving DecidableEq, Repr

/-- Whether an output is a flat array of length `n`. -/
def OutArray.flatOfLen : OutArray → ℕ → Bool
  | .flat v, n => v.length == n
  | _, _ => false

/-- Whether an output is a plain `r × c` grid. -/
def OutArray.gridOf : OutArray → ℕ → ℕ → Bool
  | .grid g, r, c => g.length == r && g.all (fun row => row.length == c)
  | _, _, _ => false

/-- Whether an output is a masked `r × c` grid whose validity flags equal
`m`. -/
def OutArray.maskedOf : OutArray → ℕ → ℕ → List (List Bool) → Bool
  | .maskedGrid g f, r, c, m =>
      g.length == r && g.all (fun row => row.length == c) && f == m
  | _, _, _, _ => false

/-- Query expansion of `execute` lines 556–583: for the grid styles,
`npt = ny*nx` and `np.meshgrid(xpts, ypts)` is flattened row-major (plus mask
processing for style `masked`); for style `points` the coordinate arrays are
used as-is after the length check.  The returned mask is the flattened
processed mask for style `masked` and `np.zeros(npt, dtype=bool)` otherwise.
Returns `(npt, xpts, ypts, mask)`. -/
def expandQuery (style : String) (xpoints ypoints : List ℚ)
    (maskIn : Option (List (List Bool))) :
    Except KrigeError (ℕ × List ℚ × List ℚ × List Bool) :=
  let nx := xpoints.length
  let ny := ypoints.length
  if style = "grid" ∨ style = "masked" then
    let npt := ny * nx
    let gx := (List.replicate ny xpoints).flatten
    let gy := (ypoints.map (fun v => List.replicate nx v)).flatten
    if style = "masked" then
      match processMask ny nx maskIn with
      | .error e => .error e
      | .ok mflat => .ok (npt, gx, gy, mflat)
    else .ok (npt, gx, gy, List.replicate npt false)
  else
    if xpoints.length ≠ ypoints.length then .error .pointsDim
    else .ok (nx, xpoints, ypoints, List.replicate nx false)

/-- Backend dispatch of `execute` lines 603–624: the moving-window path when
`n_closest_points` is given (k-d tree query, then the moving-window loop, only
for backend `loop`), and the dense / point-loop backends otherwise. -/
def Session.dispatchSolve (s : Session) (a : List (List ℚ))
    (xyPoints xyData : List (ℚ × ℚ)) (mask : List Bool) (backend : String)
    (ncp : Option ℕ) : Except KrigeError (List ℚ × List ℚ) :=
  match ncp with
  | some k =>
      let pairs := xyPoints.map (fun q => knnQuery xyData q k)
      if backend = "loop" then
        s.exec_loop_moving_window a (pairs.map Prod.fst) mask (pairs.map Prod.snd)
      else .error .badBackendMW
  | none =>
      let bd := xyPoints.map (fun q => xyData.map (fun p => qdist q p))
      if backend = "vectorized" then s.exec_vector a bd mask
      else if backend = "loop" then s.exec_loop a bd mask
      else .error .badBackend

/-- Output shaping of `execute` lines 626–632: masked arrays for style
`masked`, a 2-D reshape for the grid styles, flat arrays for `points`. -/
def shapeOutput (style : String) (ny nx : ℕ) (mask : List Bool)
    (zvalues sigmasq : List ℚ) : OutArray × OutArray :=
  if style = "masked" then
    (.maskedGrid (reshapeQ ny nx zvalues) (reshapeB ny nx mask),
     .maskedGrid (reshapeQ ny nx sigmasq) (reshapeB ny nx mask))
  else if style = "grid" then
    (.grid (reshapeQ ny nx zvalues), .grid (reshapeQ ny nx sigmasq))
  else (.flat zvalues, .flat sigmasq)

/-- Everything `execute` does after the linear/power rejection (lines
546–634): style validation, grid expansion and mask processing, anisotropy
adjustment of the query points, backend dispatch and output shaping. -/
def Session.executeBody (s : Session) (adjust : AdjustFn) (style : String)
    (xpoints ypoints : List ℚ) (maskIn : Option (List (List Bool)))
    (backend : String) (ncp : Option ℕ) : Except KrigeError (OutArray × OutArray) :=
  if ¬ (style = "grid" ∨ style = "masked" ∨ style = "points") then .error .badStyle
  else
    let a := s.get_kriging_matrix
    match expandQuery style xpoints ypoints maskIn with
    | .error e => .error e
    | .ok (_npt, xq, yq, mask) =>
        let adj := adjust xq yq s.XCENTER s.YCENTER s.anisotropy_scaling s.anisotropy_angle
        let xyPoints := adj.1.zip adj.2
        let xyData := s.X_ADJUSTED.zip s.Y_ADJUSTED
        match s.dispatchSolve a xyPoints xyData mask backend ncp with
        | .error e => .error e
        | .ok (zvalues, sigmasq) =>
            .ok (shapeOutput style ypoints.length xpoints.length mask zvalues sigmasq)

/-- Embedding of `SimpleKriging.execute` (lines 477–634).  The linear/power
rejection (lines 543–544) runs before anything else; the remainder is
`executeBody`.  (`npt` is unused by the python `points` branch beyond its
value `nx`; the commented-out Cython backend is not modelled.) -/
def Session.execute (s : Session) (adjust : AdjustFn) (style : String)
    (xpoints ypoints : List ℚ) (maskIn : Option (List (List Bool)))
    (backend : String) (ncp : Option ℕ) : Except KrigeError (OutArray × OutArray) :=
  if s.variogram_model = "linear" ∨ s.variogram_model = "power" then
    .error .modelInapplicable
  else s.executeBody adjust style xpoints ypoints maskIn backend ncp

/-! ### Concrete instances

Concrete sessions used by counterexamples and witnesses.  All of them use
anisotropy `scaling = 1, angle = 0`, where the spec fixes the external
anisotropy transform to the identity (`adjustId`), and a `custom` variogram
model, which `sk.py` accepts and routes through `variogram_function`
unchanged. -/

/-- A custom variogram model with a nugget: semivariance `d + 1/2`, so its
value at distance `0` is `1/2` and the sill parameter below is `2`. -/
def vfNug : VarioFn := fun _ d => d + 1 / 2

/-- A dictionary standing in for the external `variogram_models` module in
concrete constructor runs whose kind is one of the built-in names (its values
are never interrogated by any claim). -/
def vdict0 : String → VarioFn := fun _ _ d => d

/-- Constructor run for the two-point session `sessA` below. -/
def sessAInit : Except KrigeError Session :=
  SimpleKriging.init adjustId vdict0 [] [0, 1] [0, 0] [1, 3] "custom"
    (some [2]) (some vfNug) 1 0

/-- Two data points `(0,0) ↦ 1` and `(1,0) ↦ 3` with the nugget variogram
`vfNug` and sill `2`; the result of `sessAInit`. -/
def sessA : Session :=
  { X_ORIG := [0, 1], Y_ORIG := [0, 0], Z := [1, 3],
    variogram_model := "custom", variogram_function := vfNug,
    variogram_model_parameters := [2],
    anisotropy_scaling := 1, anisotropy_angle := 0,
    XCENTER := 1 / 2, YCENTER := 0,
    X_ADJUSTED := [0, 1], Y_ADJUSTED := [0, 0] }

/-- The kriging matrix of `sessA` is `[[3/2, 1/2], [1/2, 3/2]]`; this is its
inverse, used to discharge invertibility hypotheses in witnesses. -/
def sessAInv : List (List ℚ) := [[3 / 4, -1 / 4], [-1 / 4, 3 / 4]]

/-- Top-left (diagonal) entry of the kriging matrix of `sessA`. -/
def c1diag : ℚ := (sessA.get_kriging_matrix.getD 0 []).getD 0 0

/-- Full `execute` run of the dense backend of `sessA` at the single query
point `(0, 0)`, which coincides with the first data point. -/
def c4runVec : Except KrigeError (OutArray × OutArray) :=
  sessA.execute adjustId "points" [0] [0] none "vectorized" none

/-- The same query through the point-loop backend. -/
def c4runLoop : Except KrigeError (OutArray × OutArray) :=
  sessA.execute adjustId "points" [0] [0] none "loop" none

/-- The same query through the moving-window backend with `k = 1 < n = 2`. -/
def c4runMW : Except KrigeError (OutArray × OutArray) :=
  sessA.execute adjustId "points" [0] [0] none "loop" (some 1)

/-- Constructor run for the three-point session `sessB` below. -/
def sessBInit : Except KrigeError Session :=
  SimpleKriging.init adjustId vdict0 [] [0, 1, 2] [0, 0, 0] [1, 3, 5] "custom"
    (some [2]) (some vfNug) 1 0

/-- Three collinear data points `(0,0) ↦ 1`, `(1,0) ↦ 3`, `(2,0) ↦ 5` with
the nugget variogram `vfNug`; the result of `sessBInit`. -/
def sessB : Session :=
  { X_ORIG := [0, 1, 2], Y_ORIG := [0, 0, 0], Z := [1, 3, 5],
    variogram_model := "custom", variogram_function := vfNug,
    variogram_model_parameters := [2],
    anisotropy_scaling := 1, anisotropy_angle := 0,
    XCENTER := 1, YCENTER := 0,
    X_ADJUSTED := [0, 1, 2], Y_ADJUSTED := [0, 0, 0] }

/-- Moving-window `execute` run on `sessB`: one unmasked query point at
`(0, 0)`, `n_closest_points = 2` (so `k = 2 < n = 3`), backend `loop`. -/
def c2run : Except KrigeError (OutArray × OutArray) :=
  sessB.execute adjustId "points" [0] [0] none "loop" (some 2)

/-- Constructor run with a single data point (`n = 1`). -/
def c9init : Except KrigeError Session :=
  SimpleKriging.init adjustId vdict0 [] [5] [7] [2] "gaussian"
    (some [2, 1, 0]) none 1 0

/-- The session produced by `c9init`: a session holding a single data point. -/
def c9sess : Session :=
  { X_ORIG := [5], Y_ORIG := [7], Z := [2],
    variogram_model := "gaussian", variogram_function := vdict0 "gaussian",
    variogram_model_parameters := [2, 1, 0],
    anisotropy_scaling := 1, anisotropy_angle := 0,
    XCENTER := 5, YCENTER := 7,
    X_ADJUSTED := [5], Y_ADJUSTED := [7] }

/-- `sessA` with anisotropy scaling `2`, used to witness the
`update_variogram_model` anisotropy reset. -/
def sessC : Session :=
  { sessA with anisotropy_scaling := 2, X_ADJUSTED := [0, 2], Y_ADJUSTED := [0, 0] }

/-- The result of updating `sessC` to the gaussian model without passing
anisotropy arguments (so with the python defaults `1.0` and `0.0`). -/
def sessCUpd : Except KrigeError Session :=
  sessC.update_variogram_model adjustId vdict0 [] "gaussian" (some [2, 1, 0]) none 1 0

/-- The session that `sessCUpd` produces: anisotropy reset to `(1, 0)`, the
working frame recomputed through `adjustId`, the model replaced. -/
def sessCExpected : Session :=
  { sessA with variogram_model := "gaussian",
               variogram_function := vdict0 "gaussian",
               variogram_model_parameters := [2, 1, 0] }

/-! ### General lemmas -/

theorem getD_map_lt {α β : Type _} (f : α → β) (l : List α) (k : ℕ)
    (h : k < l.length) (d : β) (d0 : α) : (l.map f).getD k d = f (l.getD k d0) := by
  simp [List.getD_eq_getElem?_getD, List.getElem?_map, List.getElem?_eq_getElem h]

theorem getD_range_lt (n k d : ℕ) (h : k < n) : (List.range n).getD k d = k := by
  simp [List.getD_eq_getElem?_getD, List.getElem?_range, h]

theorem getD_zip_lt {α β : Type _} (u : List α) (v : List β) (k : ℕ)
    (h1 : k < u.length) (h2 : k < v.length) (d1 : α) (d2 : β) :
    (u.zip v).getD k (d1, d2) = (u.getD k d1, v.getD k d2) := by
  have : (u.zip v)[k]? = some (u[k], v[k]) := by
    simp [List.getElem?_zip_eq_some, List.getElem?_eq_getElem h1,
      List.getElem?_eq_getElem h2]
  simp [List.getD_eq_getElem?_getD, this, List.getElem?_eq_getElem h1,
    List.getElem?_eq_getElem h2]

theorem qsqrt_zero : qsqrt 0 = 0 := by with_unfolding_all decide

theorem dist2_self (p : ℚ × ℚ) : dist2 p p = 0 := by simp [dist2]

theorem dist2_comm (p q : ℚ × ℚ) : dist2 p q = dist2 q p := by
  unfold dist2; ring

theorem qdist_self (p : ℚ × ℚ) : qdist p p = 0 := by
  rw [qdist, dist2_self, qsqrt_zero]

theorem qdist_comm (p q : ℚ × ℚ) : qdist p q = qdist q p := by
  rw [qdist, qdist, dist2_comm]

theorem dotQ_nil_right (u : List ℚ) : dotQ u [] = 0 := by
  cases u <;> simp [dotQ]

theorem dotQ_cons (a b : ℚ) (u v : List ℚ) :
    dotQ (a :: u) (b :: v) = a * b + dotQ u v := by
  simp [dotQ]

theorem dotQ_replicate_zero (n : ℕ) (v : List ℚ) :
    dotQ (List.replicate n 0) v = 0 := by
  induction n generalizing v with
  | zero => simp [dotQ]
  | succ n ih =>
      cases v with
      | nil => exact dotQ_nil_right _
      | cons b vs => rw [List.replicate_succ, dotQ_cons, ih]; ring

theorem dotQ_unitVecQ (n i : ℕ) (v : List ℚ) (h : i < n) :
    dotQ (unitVecQ n i) v = v.getD i 0 := by
  induction n generalizing i v with
  | zero => omega
  | succ n ih =>
      cases i with
      | zero =>
          cases v with
          | nil => rw [dotQ_nil_right]; rfl
          | cons b vs =>
              rw [show unitVecQ (n + 1) 0 = 1 :: List.replicate n 0 from rfl,
                dotQ_cons, dotQ_replicate_zero]
              simp
      | succ i =>
          cases v with
          | nil => rw [dotQ_nil_right]; rfl
          | cons b vs =>
              rw [show unitVecQ (n + 1) (i + 1) = 0 :: unitVecQ n i from rfl,
                dotQ_cons, ih i vs (by omega)]
              simp

theorem map_zip_self {α β γ : Type _} (g : α → β) (f : β → α → γ) (l : List α) :
    ((l.map g).zip l).map (fun p => f p.1 p.2) = l.map (fun x => f (g x) x) := by
  induction l with
  | nil => simp
  | cons a t ih => simp [ih]

/-- Closed form of a successful dense solve: entry `k` applies the
estimate / variance formulas to row `k` of `bd`. -/
theorem exec_vector_ok (s : Session) (a bd : List (List ℚ)) (mask : List Bool)
    (aInv : List (List ℚ)) (hs : linv a = .ok aInv) :
    s.exec_vector a bd mask =
      .ok (bd.map (fun row => dotQ (matVec aInv (row.map (covf s))) s.Z),
           bd.map (fun row => sillOf s -
             dotQ (matVec aInv (row.map (covf s))) (row.map (covf s)))) := by
  unfold Session.exec_vector
  simp only [hs]
  rw [map_zip_self (matVec aInv) (fun x y => sillOf s - dotQ x y)
    (bd.map (fun row => row.map (covf s)))]
  simp [List.map_map]

/-- Closed form of a successful point-loop solve: entry `j` is zero when
masked and otherwise applies the same formulas to row `j` of `bdAll`. -/
theorem exec_loop_ok (s : Session) (a bdAll : List (List ℚ)) (mask : List Bool)
    (aInv : List (List ℚ)) (hs : linv a = .ok aInv) :
    s.exec_loop a bdAll mask =
      .ok ((List.range bdAll.length).map (fun j =>
              if mask.getD j false then 0 else
                dotQ (matVec aInv ((bdAll.getD j []).map (covf s))) s.Z),
           (List.range bdAll.length).map (fun j =>
              if mask.getD j false then 0 else
                sillOf s - dotQ (matVec aInv ((bdAll.getD j []).map (covf s)))
                  ((bdAll.getD j []).map (covf s)))) := by
  unfold Session.exec_loop
  simp only [hs]
  simp [List.map_map, Function.comp, apply_ite]
  refine ⟨?_, ?_⟩ <;> intro j hj <;> split <;> intro hcon <;> simp_all

theorem linv_error (a : List (List ℚ)) (e : KrigeError) (h : linv a = .error e) :
    e = .singular := by
  unfold linv at h
  split at h
  · exact (Except.error.inj h).symm
  · cases h

theorem linsolve_error (a : List (List ℚ)) (b : List ℚ) (e : KrigeError)
    (h : linsolve a b = .error e) : e = .dimMismatch ∨ e = .singular := by
  unfold linsolve at h
  split at h
  · exact Or.inl (Except.error.inj h).symm
  · split at h
    · exact Or.inr (Except.error.inj h).symm
    · cases h

theorem exec_vector_error (s : Session) (a bd : List (List ℚ)) (mask : List Bool)
    (e : KrigeError) (h : s.exec_vector a bd mask = .error e) : e = .singular := by
  unfold Session.exec_vector at h
  cases hl : linv a with
  | error e2 =>
      simp only [hl] at h
      exact (Except.error.inj h) ▸ linv_error a e2 hl
  | ok aInv => simp only [hl] at h; exact Except.noConfusion h

theorem exec_loop_error (s : Session) (a bdAll : List (List ℚ)) (mask : List Bool)
    (e : KrigeError) (h : s.exec_loop a bdAll mask = .error e) : e = .singular := by
  unfold Session.exec_loop at h
  cases hl : linv a with
  | error e2 =>
      simp only [hl] at h
      exact (Except.error.inj h) ▸ linv_error a e2 hl
  | ok aInv => simp only [hl] at h; exact Except.noConfusion h

theorem mw_aux_error (s : Session) (aAll bdAll : List (List ℚ))
    (bdIdx : List (List ℕ)) (idxs : List ℕ) (zv sg : List ℚ) (e : KrigeError)
    (h : s.exec_loop_moving_window_aux aAll bdAll bdIdx idxs zv sg = .error e) :
    e = .dimMismatch ∨ e = .singular := by
  induction idxs generalizing zv sg with
  | nil => cases h
  | cons i rest ih =>
      unfold Session.exec_loop_moving_window_aux at h
      dsimp only at h
      split at h
      next e2 heq => exact (Except.error.inj h) ▸ linsolve_error _ _ _ heq
      next x heq => exact ih _ _ h

theorem mw_error (s : Session) (aAll bdAll : List (List ℚ)) (mask : List Bool)
    (bdIdx : List (List ℕ)) (e : KrigeError)
    (h : s.exec_loop_moving_window aAll bdAll mask bdIdx = .error e) :
    e = .dimMismatch ∨ e = .singular :=
  mw_aux_error s aAll bdAll bdIdx _ _ _ e h

theorem processMask_error (ny nx : ℕ) (maskIn : Option (List (List Bool)))
    (e : KrigeError) (h : processMask ny nx maskIn = .error e) :
    e = .maskMissing ∨ e = .maskDim := by
  cases maskIn with
  | none => exact Or.inl (Except.error.inj h).symm
  | some m =>
      simp only [processMask] at h
      split at h
      · split at h
        · cases h
        · exact Or.inr (Except.error.inj h).symm
      · cases h

theorem expandQuery_error (style : String) (xp yp : List ℚ)
    (maskIn : Option (List (List Bool))) (e : KrigeError)
    (h : expandQuery style xp yp maskIn = .error e) :
    e = .maskMissing ∨ e = .maskDim ∨ e = .pointsDim := by
  unfold expandQuery at h
  dsimp only at h
  split at h
  · split at h
    · split at h
      next e2 heq =>
        rcases processMask_error _ _ _ _ heq with h2 | h2
        · exact Or.inl ((Except.error.inj h) ▸ h2)
        · exact Or.inr (Or.inl ((Except.error.inj h) ▸ h2))
      next => cases h
    · cases h
  · split at h
    · exact Or.inr (Or.inr (Except.error.inj h).symm)
    · cases h

theorem dispatchSolve_error (s : Session) (a : List (List ℚ))
    (xyPoints xyData : List (ℚ × ℚ)) (mask : List Bool) (backend : String)
    (ncp : Option ℕ) (e : KrigeError)
    (h : s.dispatchSolve a xyPoints xyData mask backend ncp = .error e) :
    e ≠ .modelInapplicable := by
  unfold Session.dispatchSolve at h
  intro hmi
  subst hmi
  cases ncp with
  | some k =>
      simp only at h
      split at h
      · rcases mw_error _ _ _ _ _ _ h with h2 | h2 <;> cases h2
      · cases (Except.error.inj h)
  | none =>
      simp only at h
      split at h
      · cases exec_vector_error _ _ _ _ _ h
      · split at h
        · cases exec_loop_error _ _ _ _ _ h
        · cases (Except.error.inj h)

/-- No path after the linear/power check can produce the
model-inapplicability error. -/
theorem executeBody_ne_mi (s : Session) (adjust : AdjustFn) (style : String)
    (xp yp : List ℚ) (maskIn : Option (List (List Bool))) (backend : String)
    (ncp : Option ℕ) :
    s.executeBody adjust style xp yp maskIn backend ncp ≠ .error .modelInapplicable := by
  unfold Session.executeBody
  intro h
  split at h
  · cases (Except.error.inj h)
  · split at h
    next e2 heq =>
      rcases expandQuery_error _ _ _ _ _ heq with h2 | h2 | h2 <;>
        · subst h2; cases (Except.error.inj h)
    next npt xq yq mask heq =>
      dsimp only at h
      split at h
      next e2 heq2 =>
        exact dispatchSolve_error _ _ _ _ _ _ _ _ heq2 (Except.error.inj h)
      next zv sg heq2 => cases h

theorem getD_append_left {α : Type _} (l1 l2 : List α) (i : ℕ) (d : α)
    (h : i < l1.length) : (l1 ++ l2).getD i d = l1.getD i d := by
  simp [List.getD_eq_getElem?_getD, List.getElem?_append_left h]

theorem getD_append_right {α : Type _} (l1 l2 : List α) (i : ℕ) (d : α)
    (h : l1.length ≤ i) : (l1 ++ l2).getD i d = l2.getD (i - l1.length) d := by
  simp [List.getD_eq_getElem?_getD, List.getElem?_append_right h]

theorem exec_vector_ok_lengths (s : Session) (a bd : List (List ℚ))
    (mask : List Bool) (zv sg : List ℚ) (h : s.exec_vector a bd mask = .ok (zv, sg)) :
    zv.length = bd.length ∧ sg.length = bd.length := by
  cases hl : linv a with
  | error e =>
      unfold Session.exec_vector at h
      simp only [hl] at h
      exact Except.noConfusion h
  | ok aInv =>
      rw [exec_vector_ok s a bd mask aInv hl] at h
      injection Except.ok.inj h with hzv hsg
      subst hzv hsg
      simp

theorem exec_loop_ok_lengths (s : Session) (a bdAll : List (List ℚ))
    (mask : List Bool) (zv sg : List ℚ) (h : s.exec_loop a bdAll mask = .ok (zv, sg)) :
    zv.length = bdAll.length ∧ sg.length = bdAll.length := by
  cases hl : linv a with
  | error e =>
      unfold Session.exec_loop at h
      simp only [hl] at h
      exact Except.noConfusion h
  | ok aInv =>
      rw [exec_loop_ok s a bdAll mask aInv hl] at h
      injection Except.ok.inj h with hzv hsg
      subst hzv hsg
      simp

theorem mw_aux_ok_lengths (s : Session) (aAll bdAll : List (List ℚ))
    (bdIdx : List (List ℕ)) (idxs : List ℕ) (zv sg zv2 sg2 : List ℚ)
    (h : s.exec_loop_moving_window_aux aAll bdAll bdIdx idxs zv sg = .ok (zv2, sg2)) :
    zv2.length = zv.length ∧ sg2.length = sg.length := by
  induction idxs generalizing zv sg with
  | nil =>
      injection Except.ok.inj h with hzv hsg
      subst hzv hsg
      exact ⟨rfl, rfl⟩
  | cons i rest ih =>
      unfold Session.exec_loop_moving_window_aux at h
      dsimp only at h
      split at h
      next => exact Except.noConfusion h
      next x heq =>
        have h2 := ih _ _ h
        simpa [List.length_set] using h2

theorem mw_ok_lengths (s : Session) (aAll bdAll : List (List ℚ))
    (mask : List Bool) (bdIdx : List (List ℕ)) (zv sg : List ℚ)
    (h : s.exec_loop_moving_window aAll bdAll mask bdIdx = .ok (zv, sg)) :
    zv.length = bdAll.length ∧ sg.length = bdAll.length := by
  have h2 := mw_aux_ok_lengths s aAll bdAll bdIdx _ _ _ _ _ h
  simpa using h2

theorem dispatchSolve_ok_lengths (s : Session) (a : List (List ℚ))
    (xyPoints xyData : List (ℚ × ℚ)) (mask : List Bool) (backend : String)
    (ncp : Option ℕ) (zv sg : List ℚ)
    (h : s.dispatchSolve a xyPoints xyData mask backend ncp = .ok (zv, sg)) :
    zv.length = xyPoints.length ∧ sg.length = xyPoints.length := by
  unfold Session.dispatchSolve at h
  cases ncp with
  | some k =>
      dsimp only at h
      split at h
      · have h2 := mw_ok_lengths _ _ _ _ _ _ _ h
        simpa using h2
      · exact Except.noConfusion h
  | none =>
      dsimp only at h
      split at h
      · have h2 := exec_vector_ok_lengths _ _ _ _ _ _ h
        simpa using h2
      · split at h
        · have h2 := exec_loop_ok_lengths _ _ _ _ _ _ h
          simpa using h2
        · exact Except.noConfusion h

theorem rowRead (row tail : List Bool) :
    (List.range row.length).map (fun j => (row ++ tail).getD j false) = row := by
  induction row with
  | nil => rfl
  | cons a rs ih =>
      rw [List.length_cons, List.range_succ_eq_map]
      simp only [List.map_cons, List.map_map]
      congr 1

theorem reshapeB_flatten (m : List (List Bool)) (nx : ℕ)
    (hrect : ∀ r ∈ m, r.length = nx) :
    reshapeB m.length nx m.flatten = m := by
  induction m with
  | nil => rfl
  | cons row rest ih =>
      have hrow : row.length = nx := hrect row (List.mem_cons_self row rest)
      unfold reshapeB
      rw [List.length_cons, List.range_succ_eq_map]
      simp only [List.map_cons, List.map_map]
      congr 1
      · simp only [List.flatten_cons, Nat.zero_mul, Nat.zero_add]
        rw [← hrow, rowRead]
      · have key : ∀ i, (List.range nx).map
            (fun j => (List.flatten (row :: rest)).getD ((i + 1) * nx + j) false) =
            (List.range nx).map (fun j => rest.flatten.getD (i * nx + j) false) := by
          intro i
          refine List.map_congr_left ?_
          intro j _
          have harith : (i + 1) * nx + j = row.length + (i * nx + j) := by
            rw [hrow]; ring
          rw [List.flatten_cons, harith, getD_append_right row rest.flatten _ false
            (by omega)]
          congr 1
          omega
        have ih2 := ih (fun r hr => hrect r (List.mem_cons_of_mem row hr))
        unfold reshapeB at ih2
        calc (List.range rest.length).map
              ((fun i => (List.range nx).map
                (fun j => (List.flatten (row :: rest)).getD (i * nx + j) false)) ∘ Nat.succ)
            = (List.range rest.length).map
                (fun i => (List.range nx).map
                  (fun j => rest.flatten.getD (i * nx + j) false)) := by
              refine List.map_congr_left ?_
              intro i _
              exact key i
          _ = rest := ih2

theorem headD_range_map {α : Type _} (n : ℕ) (f : ℕ → α) (d : α) (h : 0 < n) :
    ((List.range n).map f).headD d = f 0 := by
  cases n with
  | zero => omega
  | succ m => rw [List.range_succ_eq_map]; rfl

theorem transposeB_length (m : List (List Bool)) :
    (transposeB m).length = (m.headD []).length := by
  simp [transposeB]

theorem transposeB_headD_length (m : List (List Bool))
    (h : 0 < (m.headD []).length) : ((transposeB m).headD []).length = m.length := by
  unfold transposeB
  rw [headD_range_map _ _ _ h]
  simp

/-- Reduction of `expandQuery` at style `masked` to the mask processing. -/
theorem expandQuery_masked (xp yp : List ℚ) (maskIn : Option (List (List Bool))) :
    expandQuery "masked" xp yp maskIn =
      match processMask yp.length xp.length maskIn with
      | .error e => .error e
      | .ok mflat => .ok (yp.length * xp.length, (List.replicate yp.length xp).flatten,
          (yp.map (fun v => List.replicate xp.length v)).flatten, mflat) := by
  unfold expandQuery
  dsimp only
  rw [if_pos (Or.inr rfl), if_pos rfl]

/-- A mask-processing failure is the result of the whole `executeBody` call at
style `masked`. -/
theorem executeBody_masked_maskerr (s : Session) (adjust : AdjustFn)
    (xp yp : List ℚ) (maskIn : Option (List (List Bool))) (backend : String)
    (ncp : Option ℕ) (e : KrigeError)
    (h : processMask yp.length xp.length maskIn = .error e) :
    s.executeBody adjust "masked" xp yp maskIn backend ncp = .error e := by
  unfold Session.executeBody
  rw [if_neg (by decide)]
  dsimp only
  rw [expandQuery_masked, h]

/-- Two masked calls whose query expansions agree produce the same result. -/
theorem executeBody_mask_congr (s : Session) (adjust : AdjustFn) (xp yp : List ℚ)
    (m1 m2 : Option (List (List Bool))) (backend : String) (ncp : Option ℕ)
    (h : expandQuery "masked" xp yp m1 = expandQuery "masked" xp yp m2) :
    s.executeBody adjust "masked" xp yp m1 backend ncp =
      s.executeBody adjust "masked" xp yp m2 backend ncp := by
  unfold Session.executeBody
  rw [h]

/-- A swapped-shape mask (`nx × ny` against an `ny × nx` grid, `nx ≠ ny`) is
processed to exactly what its transpose of the correct shape is processed
to. -/
theorem processMask_eq_swap (nx ny : ℕ) (m : List (List Bool))
    (hnx : 0 < nx) (hny : 0 < ny) (hne : nx ≠ ny)
    (hrows : m.length = nx) (hrect : ∀ r ∈ m, r.length = ny) :
    processMask ny nx (some m) = .ok (transposeB m).flatten ∧
    processMask ny nx (some (transposeB m)) = .ok (transposeB m).flatten := by
  have hhead : (m.headD []).length = ny := by
    cases m with
    | nil => simp at hrows; omega
    | cons r rs => exact hrect r (List.mem_cons_self r rs)
  constructor
  · unfold processMask
    dsimp only
    rw [if_pos (Or.inl (by omega)), if_pos ⟨hrows, hhead⟩]
  · unfold processMask
    dsimp only
    rw [if_neg ?_]
    push_neg
    constructor
    · rw [transposeB_length, hhead]
    · rw [transposeB_headD_length m (by omega), hrows]

/-- Reduction of `expandQuery` at style `points`. -/
theorem expandQuery_points (xp yp : List ℚ) (maskIn : Option (List (List Bool))) :
    expandQuery "points" xp yp maskIn =
      if xp.length ≠ yp.length then .error .pointsDim
      else .ok (xp.length, xp, yp, List.replicate xp.length false) := by
  unfold expandQuery
  dsimp only
  rw [if_neg (by decide)]

/-- Reduction of `expandQuery` at style `grid`. -/
theorem expandQuery_grid (xp yp : List ℚ) (maskIn : Option (List (List Bool))) :
    expandQuery "grid" xp yp maskIn =
      .ok (yp.length * xp.length, (List.replicate yp.length xp).flatten,
        (yp.map (fun v => List.replicate xp.length v)).flatten,
        List.replicate (yp.length * xp.length) false) := by
  unfold expandQuery
  dsimp only
  rw [if_pos (Or.inl rfl), if_neg (by decide)]

theorem shapeOutput_points (ny nx : ℕ) (mask : List Bool) (zv sg : List ℚ) :
    shapeOutput "points" ny nx mask zv sg = (.flat zv, .flat sg) := by
  unfold shapeOutput
  rw [if_neg (by decide), if_neg (by decide)]

theorem shapeOutput_grid (ny nx : ℕ) (mask : List Bool) (zv sg : List ℚ) :
    shapeOutput "grid" ny nx mask zv sg =
      (.grid (reshapeQ ny nx zv), .grid (reshapeQ ny nx sg)) := by
  unfold shapeOutput
  rw [if_neg (by decide), if_pos rfl]

theorem shapeOutput_masked (ny nx : ℕ) (mask : List Bool) (zv sg : List ℚ) :
    shapeOutput "masked" ny nx mask zv sg =
      (.maskedGrid (reshapeQ ny nx zv) (reshapeB ny nx mask),
       .maskedGrid (reshapeQ ny nx sg) (reshapeB ny nx mask)) := by
  unfold shapeOutput
  rw [if_pos rfl]

theorem gridOf_reshapeQ (r c : ℕ) (v : List ℚ) :
    (OutArray.grid (reshapeQ r c v)).gridOf r c = true := by
  simp only [OutArray.gridOf, reshapeQ, Bool.and_eq_true, beq_iff_eq,
    List.all_eq_true]
  refine ⟨by simp, ?_⟩
  intro row hrow
  simp only [List.mem_map] at hrow
  obtain ⟨i, _, hrow2⟩ := hrow
  subst hrow2
  simp

theorem maskedOf_reshapeQ (r c : ℕ) (v : List ℚ) (f : List (List Bool)) :
    (OutArray.maskedGrid (reshapeQ r c v) f).maskedOf r c f = true := by
  simp only [OutArray.maskedOf, reshapeQ, Bool.and_eq_true, beq_iff_eq,
    List.all_eq_true]
  refine ⟨⟨by simp, ?_⟩, trivial⟩
  intro row hrow
  simp only [List.mem_map] at hrow
  obtain ⟨i, _, hrow2⟩ := hrow
  subst hrow2
  simp

/-! ### Claim theorems -/

/-- C3: for every session whose variogram kind is `linear` or `power`, every
call to `execute` — any style, query points, mask, backend and
`n_closest_points` — fails with the model-inapplicability error and never
returns a result; for all other kinds this check never fires (no call ever
returns that error). -/
theorem c3_linear_power_rejected (s : Session) (adjust : AdjustFn) (style : String)
    (xp yp : List ℚ) (maskIn : Option (List (List Bool))) (backend : String)
    (ncp : Option ℕ) :
    ((s.variogram_model = "linear" ∨ s.variogram_model = "power") →
      s.execute adjust style xp yp maskIn backend ncp = .error .modelInapplicable) ∧
    (s.variogram_model ≠ "linear" → s.variogram_model ≠ "power" →
      s.execute adjust style xp yp maskIn backend ncp ≠ .error .modelInapplicable) := by
  constructor
  · intro h
    unfold Session.execute
    rw [if_pos h]
  · intro h1 h2
    unfold Session.execute
    rw [if_neg (by tauto)]
    exact executeBody_ne_mi s adjust style xp yp maskIn backend ncp

/-- C3 witness: the linear-model session built from `sessA`'s data rejects a
concrete dense-grid call, and `sessA` (custom kind) never produces that
error. -/
theorem c3_witness :
    ({ sessA with variogram_model := "linear" } : Session).execute adjustId "grid"
        [0, 1] [0] none "vectorized" none = .error .modelInapplicable ∧
    sessA.execute adjustId "grid" [0, 1] [0] none "vectorized" none ≠
      .error .modelInapplicable :=
  ⟨(c3_linear_power_rejected { sessA with variogram_model := "linear" } adjustId
      "grid" [0, 1] [0] none "vectorized" none).1 (Or.inl rfl),
   (c3_linear_power_rejected sessA adjustId "grid" [0, 1] [0] none "vectorized"
      none).2 (by with_unfolding_all decide) (by with_unfolding_all decide)⟩

/-- C5: on identical inputs (same kriging matrix `a`, data values, query-to-
data distance rows `bd` and mask), the dense and point-loop backends return
equal estimates and variances at every unmasked query point (exactly equal in
this exact-arithmetic model, hence within any solver tolerance). -/
theorem c5_dense_loop_agree (s : Session) (a bd : List (List ℚ)) (mask : List Bool)
    (j : ℕ) (hj : j < bd.length) (hmask : mask.getD j false = false)
    (zv1 sg1 zv2 sg2 : List ℚ)
    (h1 : s.exec_vector a bd mask = .ok (zv1, sg1))
    (h2 : s.exec_loop a bd mask = .ok (zv2, sg2)) :
    zv1.getD j 0 = zv2.getD j 0 ∧ sg1.getD j 0 = sg2.getD j 0 := by
  cases hl : linv a with
  | error e =>
      unfold Session.exec_vector at h1
      simp only [hl] at h1
      exact Except.noConfusion h1
  | ok aInv =>
      rw [exec_vector_ok s a bd mask aInv hl] at h1
      rw [exec_loop_ok s a bd mask aInv hl] at h2
      injection Except.ok.inj h1 with hzv1 hsg1
      injection Except.ok.inj h2 with hzv2 hsg2
      subst hzv1 hsg1 hzv2 hsg2
      have hjr : j < (List.range bd.length).length := by simpa using hj
      constructor
      · rw [getD_map_lt _ bd j hj 0 [], getD_map_lt _ (List.range bd.length) j hjr 0 0,
          getD_range_lt _ _ _ hj, hmask]
        simp
      · rw [getD_map_lt _ bd j hj 0 [], getD_map_lt _ (List.range bd.length) j hjr 0 0,
          getD_range_lt _ _ _ hj, hmask]
        simp

/-- C5 witness: `sessA`, its kriging matrix, one unmasked query row
`[1/2, 1/2]`; both backends return estimate 2 and variance 1. -/
theorem c5_witness :
    sessA.exec_vector sessA.get_kriging_matrix [[1 / 2, 1 / 2]] [false] = .ok ([2], [1]) ∧
    sessA.exec_loop sessA.get_kriging_matrix [[1 / 2, 1 / 2]] [false] = .ok ([2], [1]) ∧
    (List.getD [(2 : ℚ)] 0 0 = List.getD [(2 : ℚ)] 0 0 ∧
     List.getD [(1 : ℚ)] 0 0 = List.getD [(1 : ℚ)] 0 0) := by
  refine ⟨?hv, ?hl, ?hc⟩
  case hv => with_unfolding_all decide
  case hl => with_unfolding_all decide
  case hc =>
    exact c5_dense_loop_agree sessA sessA.get_kriging_matrix [[1 / 2, 1 / 2]] [false]
      0 (by with_unfolding_all decide) (by with_unfolding_all decide)
      [2] [1] [2] [1] (by with_unfolding_all decide) (by with_unfolding_all decide)

/-- C6: the point-loop backend computes only unmasked points — a masked slot
keeps its initial zero in both output arrays — while the dense backend still
multiplies masked points through: its result does not depend on the mask at
all (the mask only tags the `b` array). -/
theorem c6_mask_semantics (s : Session) (a bd : List (List ℚ))
    (mask mask2 : List Bool) (j : ℕ) (hj : j < bd.length)
    (hmask : mask.getD j false = true) :
    s.exec_vector a bd mask = s.exec_vector a bd mask2 ∧
    (∀ zv sg, s.exec_loop a bd mask = .ok (zv, sg) →
      zv.getD j 0 = 0 ∧ sg.getD j 0 = 0) := by
  constructor
  · rfl
  · intro zv sg h
    cases hl : linv a with
    | error e =>
        unfold Session.exec_loop at h
        simp only [hl] at h
        exact Except.noConfusion h
    | ok aInv =>
        rw [exec_loop_ok s a bd mask aInv hl] at h
        injection Except.ok.inj h with hzv hsg
        subst hzv hsg
        have hjr : j < (List.range bd.length).length := by simpa using hj
        constructor <;>
          rw [getD_map_lt _ (List.range bd.length) j hjr 0 0,
            getD_range_lt _ _ _ hj, hmask] <;> simp

/-- C6 witness: with the single query point masked, the loop backend leaves
zeros while the dense backend still computes `(2, 1)` (its output equals the
all-unmasked run). -/
theorem c6_witness :
    sessA.exec_vector sessA.get_kriging_matrix [[1 / 2, 1 / 2]] [true] =
      sessA.exec_vector sessA.get_kriging_matrix [[1 / 2, 1 / 2]] [false] ∧
    sessA.exec_vector sessA.get_kriging_matrix [[1 / 2, 1 / 2]] [true] = .ok ([2], [1]) ∧
    sessA.exec_loop sessA.get_kriging_matrix [[1 / 2, 1 / 2]] [true] = .ok ([0], [0]) ∧
    (∀ zv sg,
      sessA.exec_loop sessA.get_kriging_matrix [[1 / 2, 1 / 2]] [true] = .ok (zv, sg) →
      zv.getD 0 0 = 0 ∧ sg.getD 0 0 = 0) := by
  refine ⟨?he, ?hv, ?hz, ?hc⟩
  case he =>
    exact (c6_mask_semantics sessA sessA.get_kriging_matrix [[1 / 2, 1 / 2]]
      [true] [false] 0 (by with_unfolding_all decide) (by with_unfolding_all decide)).1
  case hv => with_unfolding_all decide
  case hz => with_unfolding_all decide
  case hc =>
    exact (c6_mask_semantics sessA sessA.get_kriging_matrix [[1 / 2, 1 / 2]]
      [true] [false] 0 (by with_unfolding_all decide) (by with_unfolding_all decide)).2

/-- C1 counterexample: `sessA` is a constructed session (`sessAInit`) with a
valid (custom) variogram model whose value at distance 0 is `1/2`; the
diagonal entry `(0, 0)` of its kriging matrix is `sill - 1/2 = 3/2`, not `0` —
the builder applies no zero-forcing to the diagonal. -/
theorem c1_counterexample :
    sessAInit = .ok sessA ∧ c1diag = 3 / 2 ∧ c1diag ≠ 0 :=
  ⟨by with_unfolding_all rfl, by with_unfolding_all decide,
   by with_unfolding_all decide⟩

/-- C1 amended: every diagonal entry of the kriging matrix equals
`params[0] - variogram_function(params, 0)` — the sill minus the variogram at
distance zero (so it is `0` exactly when the variogram at `0` equals the
sill, not regardless of the model). -/
theorem c1_amended (s : Session) (i : ℕ) (hi : i < s.get_kriging_matrix.length) :
    (s.get_kriging_matrix.getD i []).getD i 0 =
      sillOf s - s.variogram_function s.variogram_model_parameters 0 := by
  unfold Session.get_kriging_matrix at hi ⊢
  have hi2 : i < (s.X_ADJUSTED.zip s.Y_ADJUSTED).length := by simpa using hi
  rw [getD_map_lt _ _ i hi2 [] (0, 0), getD_map_lt _ _ i hi2 0 (0, 0), qdist_self]
  rfl

/-- C1 amended, witness at `sessA`, diagonal index 0. -/
theorem c1_amended_witness :
    0 < sessA.get_kriging_matrix.length ∧
    (sessA.get_kriging_matrix.getD 0 []).getD 0 0 =
      sillOf sessA - sessA.variogram_function sessA.variogram_model_parameters 0 :=
  ⟨by with_unfolding_all decide, c1_amended sessA 0 (by with_unfolding_all decide)⟩

/-- C2: the moving-window backend never solves the reduced system it claims
to: on the constructed 3-point session `sessB` with `n_closest_points = 2`
and one unmasked query point, the selector appends the extra index
`a_all.shape[0] - 1` to the 2 neighbour indices, so `scipy.linalg.solve`
receives a `3×3` matrix against a length-2 vector and the call fails with the
dimension-mismatch error instead of returning a result. -/
theorem c2_moving_window_crashes :
    sessBInit = .ok sessB ∧ c2run = .error .dimMismatch :=
  ⟨by with_unfolding_all rfl, by with_unfolding_all decide⟩

/-- C4 counterexample: `sessA` is constructed with a variogram whose value at
distance 0 is `1/2` (a nugget).  Querying exactly at the first data point
`(0, 0)` (whose value is `1`), the dense and loop backends return estimate
`1` but variance `1/2`, not `≈ 0`; the moving-window backend fails with a
dimension error and returns nothing at all. -/
theorem c4_counterexample :
    sessAInit = .ok sessA ∧
    c4runVec = .ok (.flat [1], .flat [1 / 2]) ∧
    c4runLoop = .ok (.flat [1], .flat [1 / 2]) ∧
    c4runMW = .error .dimMismatch ∧
    ((1 : ℚ) / 2 ≠ 0) :=
  ⟨by with_unfolding_all rfl, by with_unfolding_all decide,
   by with_unfolding_all decide, by with_unfolding_all decide,
   by with_unfolding_all decide⟩

/-- C4 amended: for the dense and point-loop backends (the moving-window
backend fails, see C2), a query whose distance row equals the distances from
data point `i` yields estimate exactly `Z[i]` and variance exactly the
variogram value at distance 0 — which is `≈ 0` precisely when the variogram
vanishes at 0 (zero nugget), not in general. -/
theorem c4_amended (s : Session) (aInv : List (List ℚ)) (bd : List (List ℚ))
    (mask : List Bool) (k i : ℕ)
    (hlinv : linv s.get_kriging_matrix = .ok aInv)
    (hinv : ∀ j, j < s.get_kriging_matrix.length →
      matVec aInv (colQ j s.get_kriging_matrix) =
        unitVecQ s.get_kriging_matrix.length j)
    (hi : i < (s.X_ADJUSTED.zip s.Y_ADJUSTED).length)
    (hbd : bd.getD k [] = (s.X_ADJUSTED.zip s.Y_ADJUSTED).map
      (fun p => qdist ((s.X_ADJUSTED.zip s.Y_ADJUSTED).getD i (0, 0)) p))
    (hk : k < bd.length) (hmask : mask.getD k false = false) :
    (∀ zv sg, s.exec_vector s.get_kriging_matrix bd mask = .ok (zv, sg) →
      zv.getD k 0 = s.Z.getD i 0 ∧
      sg.getD k 0 = s.variogram_function s.variogram_model_parameters 0) ∧
    (∀ zv sg, s.exec_loop s.get_kriging_matrix bd mask = .ok (zv, sg) →
      zv.getD k 0 = s.Z.getD i 0 ∧
      sg.getD k 0 = s.variogram_function s.variogram_model_parameters 0) := by
  have hlen : s.get_kriging_matrix.length = (s.X_ADJUSTED.zip s.Y_ADJUSTED).length := by
    unfold Session.get_kriging_matrix
    simp
  have hiA : i < s.get_kriging_matrix.length := by omega
  -- the covariance row of a coincident query is column i of the matrix
  have hbk : (bd.getD k []).map (covf s) = colQ i s.get_kriging_matrix := by
    rw [hbd, List.map_map]
    unfold colQ Session.get_kriging_matrix
    rw [List.map_map]
    refine List.map_congr_left ?_
    intro p _
    simp only [Function.comp]
    rw [getD_map_lt _ _ i hi 0 (0, 0), qdist_comm]
  have hxk : matVec aInv ((bd.getD k []).map (covf s)) =
      unitVecQ s.get_kriging_matrix.length i := by
    rw [hbk]; exact hinv i hiA
  have hest : dotQ (matVec aInv ((bd.getD k []).map (covf s))) s.Z = s.Z.getD i 0 := by
    rw [hxk]; exact dotQ_unitVecQ _ _ _ hiA
  have hbki : ((bd.getD k []).map (covf s)).getD i 0 = covf s 0 := by
    have hi3 : i < ((s.X_ADJUSTED.zip s.Y_ADJUSTED).map
        (fun p => qdist ((s.X_ADJUSTED.zip s.Y_ADJUSTED).getD i (0, 0)) p)).length := by
      simpa using hi
    rw [hbd, getD_map_lt _ _ i hi3 0 0, getD_map_lt _ _ i hi 0 (0, 0), qdist_self]
  have hvar : sillOf s -
      dotQ (matVec aInv ((bd.getD k []).map (covf s))) ((bd.getD k []).map (covf s)) =
      s.variogram_function s.variogram_model_parameters 0 := by
    rw [hxk, dotQ_unitVecQ _ _ _ hiA, hbki]
    unfold covf
    ring
  constructor
  · intro zv sg h
    rw [exec_vector_ok s _ bd mask aInv hlinv] at h
    injection Except.ok.inj h with hzv hsg
    subst hzv hsg
    constructor
    · rw [getD_map_lt _ bd k hk 0 [], hest]
    · rw [getD_map_lt _ bd k hk 0 [], hvar]
  · intro zv sg h
    rw [exec_loop_ok s _ bd mask aInv hlinv] at h
    injection Except.ok.inj h with hzv hsg
    subst hzv hsg
    have hkr : k < (List.range bd.length).length := by simpa using hk
    constructor
    · rw [getD_map_lt _ (List.range bd.length) k hkr 0 0,
        getD_range_lt _ _ _ hk, hmask]
      simpa using hest
    · rw [getD_map_lt _ (List.range bd.length) k hkr 0 0,
        getD_range_lt _ _ _ hk, hmask]
      simpa using hvar

/-- C4 amended, witness: `sessA`, query row `[0, 1]` (the distances from data
point 0), unmasked; both backends yield estimate `Z[0]` and variance
`variogram(0)`. -/
theorem c4_amended_witness :
    (∀ zv sg, sessA.exec_vector sessA.get_kriging_matrix [[0, 1]] [false] = .ok (zv, sg) →
      zv.getD 0 0 = sessA.Z.getD 0 0 ∧
      sg.getD 0 0 = sessA.variogram_function sessA.variogram_model_parameters 0) ∧
    (∀ zv sg, sessA.exec_loop sessA.get_kriging_matrix [[0, 1]] [false] = .ok (zv, sg) →
      zv.getD 0 0 = sessA.Z.getD 0 0 ∧
      sg.getD 0 0 = sessA.variogram_function sessA.variogram_model_parameters 0) :=
  c4_amended sessA sessAInv [[0, 1]] [false] 0 0
    (by with_unfolding_all decide) (by with_unfolding_all decide)
    (by with_unfolding_all decide) (by with_unfolding_all decide)
    (by with_unfolding_all decide) (by with_unfolding_all decide)

/-- C9 counterexample: the constructor accepts a single data point — `c9init`
succeeds and yields a session with `n = 1 < 2` (no arity validation exists at
lines 194–196). -/
theorem c9_counterexample :
    c9init = .ok c9sess ∧ c9sess.X_ORIG.length = 1 ∧ c9sess.Y_ORIG.length = 1 ∧
    c9sess.Z.length = 1 :=
  ⟨by with_unfolding_all rfl, rfl, rfl, rfl⟩

/-- C9 amended: every successfully constructed session stores `x`, `y`, `z`
exactly as passed — the constructor performs no length validation, so the
stored lengths are whatever the caller supplied (equal to the input lengths,
but not checked against each other and not required to be ≥ 2). -/
theorem c9_amended (adjust : AdjustFn) (vdict : String → VarioFn)
    (autofit : List ℚ) (x y z : List ℚ) (vm : String) (vp : Option (List ℚ))
    (vf : Option VarioFn) (asc aan : ℚ) (s : Session)
    (h : SimpleKriging.init adjust vdict autofit x y z vm vp vf asc aan = .ok s) :
    s.X_ORIG = x ∧ s.Y_ORIG = y ∧ s.Z = z := by
  unfold SimpleKriging.init at h
  split at h
  · exact Except.noConfusion h
  · dsimp only at h
    split at h
    · cases Except.ok.inj h
      exact ⟨rfl, rfl, rfl⟩
    · split at h
      · split at h
        · exact Except.noConfusion h
        · cases Except.ok.inj h
          exact ⟨rfl, rfl, rfl⟩
      · exact Except.noConfusion h

/-- C9 amended, witness at the single-point constructor run `c9init`. -/
theorem c9_amended_witness :
    c9sess.X_ORIG = [5] ∧ c9sess.Y_ORIG = [7] ∧ c9sess.Z = [2] :=
  c9_amended adjustId vdict0 [] [5] [7] [2] "gaussian" (some [2, 1, 0]) none 1 0
    c9sess (by with_unfolding_all rfl)

/-- C10: a successful `update_variogram_model` call made with the default
anisotropy arguments (`1.0`, `0.0`) resets `anisotropy_scaling` to `1` and
`anisotropy_angle` to `0` whatever they were before, leaves the anisotropy
center untouched, recomputes the working-frame coordinates through the
anisotropy transform at `(1, 0)` whenever either default differs from the
current value, and leaves them untouched otherwise. -/
theorem c10_update_resets_anisotropy (s : Session) (adjust : AdjustFn)
    (vdict : String → VarioFn) (autofit : List ℚ) (vm : String)
    (vp : Option (List ℚ)) (vf : Option VarioFn) (s2 : Session)
    (h : s.update_variogram_model adjust vdict autofit vm vp vf 1 0 = .ok s2) :
    s2.anisotropy_scaling = 1 ∧ s2.anisotropy_angle = 0 ∧
    s2.XCENTER = s.XCENTER ∧ s2.YCENTER = s.YCENTER ∧
    ((s.anisotropy_scaling ≠ 1 ∨ s.anisotropy_angle ≠ 0) →
      (s2.X_ADJUSTED, s2.Y_ADJUSTED) =
        adjust s.X_ORIG s.Y_ORIG s.XCENTER s.YCENTER 1 0) ∧
    (s.anisotropy_scaling = 1 ∧ s.anisotropy_angle = 0 →
      s2.X_ADJUSTED = s.X_ADJUSTED ∧ s2.Y_ADJUSTED = s.Y_ADJUSTED) := by
  unfold Session.update_variogram_model at h
  dsimp only at h
  by_cases hcond : (1 : ℚ) ≠ s.anisotropy_scaling ∨ (0 : ℚ) ≠ s.anisotropy_angle
  · rw [if_pos hcond] at h
    have hres : s2.anisotropy_scaling = 1 ∧ s2.anisotropy_angle = 0 ∧
        s2.XCENTER = s.XCENTER ∧ s2.YCENTER = s.YCENTER ∧
        (s2.X_ADJUSTED, s2.Y_ADJUSTED) =
          adjust s.X_ORIG s.Y_ORIG s.XCENTER s.YCENTER 1 0 := by
      split at h
      · cases Except.ok.inj h
        exact ⟨rfl, rfl, rfl, rfl, rfl⟩
      · split at h
        · split at h
          · exact Except.noConfusion h
          · cases Except.ok.inj h
            exact ⟨rfl, rfl, rfl, rfl, rfl⟩
        · exact Except.noConfusion h
    refine ⟨hres.1, hres.2.1, hres.2.2.1, hres.2.2.2.1, fun _ => hres.2.2.2.2, ?_⟩
    intro hp
    exact absurd hp (by tauto)
  · rw [if_neg hcond] at h
    push_neg at hcond
    have hres : s2.anisotropy_scaling = s.anisotropy_scaling ∧
        s2.anisotropy_angle = s.anisotropy_angle ∧
        s2.XCENTER = s.XCENTER ∧ s2.YCENTER = s.YCENTER ∧
        s2.X_ADJUSTED = s.X_ADJUSTED ∧ s2.Y_ADJUSTED = s.Y_ADJUSTED := by
      split at h
      · cases Except.ok.inj h
        exact ⟨rfl, rfl, rfl, rfl, rfl, rfl⟩
      · split at h
        · split at h
          · exact Except.noConfusion h
          · cases Except.ok.inj h
            exact ⟨rfl, rfl, rfl, rfl, rfl, rfl⟩
        · exact Except.noConfusion h
    refine ⟨by rw [hres.1, hcond.1], by rw [hres.2.1, hcond.2],
      hres.2.2.1, hres.2.2.2.1, ?_, fun _ => ⟨hres.2.2.2.2.1, hres.2.2.2.2.2⟩⟩
    intro hp
    rcases hp with hp | hp
    · exact absurd hcond.1.symm hp
    · exact absurd hcond.2.symm hp

/-- C10 witness: updating `sessC` (scaling 2) to the gaussian model with the
default anisotropy arguments yields `sessCExpected` (scaling reset to 1,
centers unchanged, working frame recomputed through `adjustId`). -/
theorem c10_witness :
    sessCExpected.anisotropy_scaling = 1 ∧ sessCExpected.anisotropy_angle = 0 ∧
    sessCExpected.XCENTER = sessC.XCENTER ∧ sessCExpected.YCENTER = sessC.YCENTER ∧
    ((sessC.anisotropy_scaling ≠ 1 ∨ sessC.anisotropy_angle ≠ 0) →
      (sessCExpected.X_ADJUSTED, sessCExpected.Y_ADJUSTED) =
        adjustId sessC.X_ORIG sessC.Y_ORIG sessC.XCENTER sessC.YCENTER 1 0) ∧
    (sessC.anisotropy_scaling = 1 ∧ sessC.anisotropy_angle = 0 →
      sessCExpected.X_ADJUSTED = sessC.X_ADJUSTED ∧
      sessCExpected.Y_ADJUSTED = sessC.Y_ADJUSTED) :=
  c10_update_resets_anisotropy sessC adjustId vdict0 [] "gaussian"
    (some [2, 1, 0]) none sessCExpected (by with_unfolding_all rfl)

/-- C7: at style `masked` (with a session that passes the model check, since
that check runs first), a missing mask is an immediate error; a mask shaped
like the transposed grid (`nx × ny` instead of `ny × nx`) is accepted and
handled exactly as its transpose of the correct shape; a mask of any other
shape is rejected with the dimension-mismatch error. -/
theorem c7_mask_validation (s : Session) (adjust : AdjustFn) (xp yp : List ℚ)
    (backend : String) (ncp : Option ℕ) (m : List (List Bool))
    (hk1 : s.variogram_model ≠ "linear") (hk2 : s.variogram_model ≠ "power")
    (hnx : 0 < xp.length) (hny : 0 < yp.length) (hne : xp.length ≠ yp.length)
    (hrows : m.length = xp.length) (hrect : ∀ r ∈ m, r.length = yp.length) :
    s.execute adjust "masked" xp yp none backend ncp = .error .maskMissing ∧
    s.execute adjust "masked" xp yp (some m) backend ncp
      = s.execute adjust "masked" xp yp (some (transposeB m)) backend ncp ∧
    (∀ m2 : List (List Bool),
      ¬ (m2.length = yp.length ∧ (m2.headD []).length = xp.length) →
      ¬ (m2.length = xp.length ∧ (m2.headD []).length = yp.length) →
      s.execute adjust "masked" xp yp (some m2) backend ncp = .error .maskDim) := by
  have hkind : ¬ (s.variogram_model = "linear" ∨ s.variogram_model = "power") := by
    tauto
  refine ⟨?_, ?_, ?_⟩
  · unfold Session.execute
    rw [if_neg hkind]
    exact executeBody_masked_maskerr s adjust xp yp none backend ncp _ rfl
  · unfold Session.execute
    rw [if_neg hkind, if_neg hkind]
    apply executeBody_mask_congr
    rw [expandQuery_masked, expandQuery_masked]
    obtain ⟨h1, h2⟩ :=
      processMask_eq_swap xp.length yp.length m hnx hny hne hrows hrect
    rw [h1, h2]
  · intro m2 hs1 hs2
    unfold Session.execute
    rw [if_neg hkind]
    apply executeBody_masked_maskerr
    unfold processMask
    dsimp only
    rw [if_pos (by tauto), if_neg hs2]

/-- C7 witness: a `2 × 1` grid (`nx = 2`, `ny = 1`) on `sessA`: no mask
errors, the swapped `2 × 1` mask is handled like its `1 × 2` transpose, and
badly shaped masks are rejected. -/
theorem c7_witness :
    sessA.execute adjustId "masked" [0, 1] [0] none "vectorized" none
      = .error .maskMissing ∧
    sessA.execute adjustId "masked" [0, 1] [0] (some [[false], [true]]) "vectorized" none
      = sessA.execute adjustId "masked" [0, 1] [0]
          (some (transposeB [[false], [true]])) "vectorized" none ∧
    (∀ m2 : List (List Bool),
      ¬ (m2.length = List.length [(0 : ℚ)] ∧ (m2.headD []).length = List.length [(0 : ℚ), 1]) →
      ¬ (m2.length = List.length [(0 : ℚ), 1] ∧ (m2.headD []).length = List.length [(0 : ℚ)]) →
      sessA.execute adjustId "masked" [0, 1] [0] (some m2) "vectorized" none
        = .error .maskDim) :=
  c7_mask_validation sessA adjustId [0, 1] [0] "vectorized" none [[false], [true]]
    (by with_unfolding_all decide) (by with_unfolding_all decide)
    (by with_unfolding_all decide) (by with_unfolding_all decide)
    (by with_unfolding_all decide) (by with_unfolding_all decide)
    (by with_unfolding_all decide)

/-- C8: a successful `execute` returns flat arrays of length `npt` for style
`points`, plain `ny × nx` grids for style `grid`, and masked `ny × nx` grids
for style `masked` whose per-cell validity flags equal the input mask (masked
cells are flagged, not merely zero-filled). -/
theorem c8_output_shapes (s : Session) (adjust : AdjustFn) (xp yp : List ℚ)
    (maskIn : Option (List (List Bool))) (backend : String) (ncp : Option ℕ)
    (hadj : ∀ gx gy : List ℚ,
      (adjust gx gy s.XCENTER s.YCENTER s.anisotropy_scaling s.anisotropy_angle).1.length
        = gx.length ∧
      (adjust gx gy s.XCENTER s.YCENTER s.anisotropy_scaling s.anisotropy_angle).2.length
        = gy.length) :
    (∀ oz os, s.execute adjust "points" xp yp maskIn backend ncp = .ok (oz, os) →
      oz.flatOfLen xp.length = true ∧ os.flatOfLen xp.length = true) ∧
    (∀ oz os, s.execute adjust "grid" xp yp maskIn backend ncp = .ok (oz, os) →
      oz.gridOf yp.length xp.length = true ∧ os.gridOf yp.length xp.length = true) ∧
    (∀ (m : List (List Bool)) oz os, 0 < yp.length → m.length = yp.length →
      (∀ r ∈ m, r.length = xp.length) →
      s.execute adjust "masked" xp yp (some m) backend ncp = .ok (oz, os) →
      oz.maskedOf yp.length xp.length m = true ∧
      os.maskedOf yp.length xp.length m = true) := by
  refine ⟨?_, ?_, ?_⟩
  · intro oz os h
    unfold Session.execute at h
    split at h
    · exact Except.noConfusion h
    · unfold Session.executeBody at h
      rw [if_neg (by decide)] at h
      dsimp only at h
      rw [expandQuery_points] at h
      by_cases heq : xp.length ≠ yp.length
      · rw [if_pos heq] at h
        exact Except.noConfusion h
      · rw [if_neg heq] at h
        dsimp only at h
        split at h
        next e heq2 => exact Except.noConfusion h
        next zv sg heq2 =>
          rw [shapeOutput_points] at h
          push_neg at heq
          have hlen := dispatchSolve_ok_lengths _ _ _ _ _ _ _ _ _ heq2
          have hxy : ((adjust xp yp s.XCENTER s.YCENTER s.anisotropy_scaling
              s.anisotropy_angle).1.zip
              (adjust xp yp s.XCENTER s.YCENTER s.anisotropy_scaling
                s.anisotropy_angle).2).length = xp.length := by
            rw [List.length_zip, (hadj xp yp).1, (hadj xp yp).2, heq, Nat.min_self]
          injection Except.ok.inj h with h1 h2
          subst h1 h2
          have hzv : zv.length = xp.length := by rw [hlen.1, hxy]
          have hsg : sg.length = xp.length := by rw [hlen.2, hxy]
          constructor <;> simp [OutArray.flatOfLen, hzv, hsg]
  · intro oz os h
    unfold Session.execute at h
    split at h
    · exact Except.noConfusion h
    · unfold Session.executeBody at h
      rw [if_neg (by decide)] at h
      dsimp only at h
      rw [expandQuery_grid] at h
      dsimp only at h
      split at h
      next e heq2 => exact Except.noConfusion h
      next zv sg heq2 =>
        rw [shapeOutput_grid] at h
        injection Except.ok.inj h with h1 h2
        subst h1 h2
        exact ⟨gridOf_reshapeQ _ _ _, gridOf_reshapeQ _ _ _⟩
  · intro m oz os hny hrows hrect h
    unfold Session.execute at h
    split at h
    · exact Except.noConfusion h
    · unfold Session.executeBody at h
      rw [if_neg (by decide)] at h
      dsimp only at h
      rw [expandQuery_masked] at h
      have hpm : processMask yp.length xp.length (some m) = .ok m.flatten := by
        unfold processMask
        dsimp only
        rw [if_neg ?_]
        push_neg
        refine ⟨hrows, ?_⟩
        cases m with
        | nil => simp at hrows; omega
        | cons r rs => exact hrect r (List.mem_cons_self r rs)
      rw [hpm] at h
      dsimp only at h
      split at h
      next e heq2 => exact Except.noConfusion h
      next zv sg heq2 =>
        rw [shapeOutput_masked] at h
        have hflags : reshapeB yp.length xp.length m.flatten = m := by
          rw [← hrows]
          exact reshapeB_flatten m xp.length hrect
        rw [hflags] at h
        injection Except.ok.inj h with h1 h2
        subst h1 h2
        exact ⟨maskedOf_reshapeQ _ _ _ m, maskedOf_reshapeQ _ _ _ m⟩

/-- C8 witness: a 2-point query list, a `2 × 2` grid and a `2 × 2` masked
grid on `sessA` all return successfully, and the applied shape statement
holds for them. -/
theorem c8_witness :
    (sessA.execute adjustId "points" [0, 1] [0, 1] none "vectorized" none).toOption.isSome
      = true ∧
    (sessA.execute adjustId "grid" [0, 1] [0, 1] none "vectorized" none).toOption.isSome
      = true ∧
    (sessA.execute adjustId "masked" [0, 1] [0, 1]
      (some [[false, true], [true, false]]) "vectorized" none).toOption.isSome = true ∧
    ((∀ oz os, sessA.execute adjustId "points" ([0, 1] : List ℚ) ([0, 1] : List ℚ)
        none "vectorized" none = .ok (oz, os) →
      oz.flatOfLen ([0, 1] : List ℚ).length = true ∧
      os.flatOfLen ([0, 1] : List ℚ).length = true) ∧
    (∀ oz os, sessA.execute adjustId "grid" ([0, 1] : List ℚ) ([0, 1] : List ℚ)
        none "vectorized" none = .ok (oz, os) →
      oz.gridOf ([0, 1] : List ℚ).length ([0, 1] : List ℚ).length = true ∧
      os.gridOf ([0, 1] : List ℚ).length ([0, 1] : List ℚ).length = true) ∧
    (∀ (m : List (List Bool)) oz os, 0 < ([0, 1] : List ℚ).length →
      m.length = ([0, 1] : List ℚ).length →
      (∀ r ∈ m, r.length = ([0, 1] : List ℚ).length) →
      sessA.execute adjustId "masked" ([0, 1] : List ℚ) ([0, 1] : List ℚ)
        (some m) "vectorized" none = .ok (oz, os) →
      oz.maskedOf ([0, 1] : List ℚ).length ([0, 1] : List ℚ).length m = true ∧
      os.maskedOf ([0, 1] : List ℚ).length ([0, 1] : List ℚ).length m = true)) :=
  ⟨by with_unfolding_all decide, by with_unfolding_all decide,
   by with_unfolding_all decide,
   c8_output_shapes sessA adjustId [0, 1] [0, 1] none "vectorized" none
     (fun gx gy => ⟨rfl, rfl⟩)⟩

end PyKrige
